import Mathlib

/-!
# Verification of the cinema-seat-booking model

Shallow embedding of the seat-booking core of the repository
(`src/components/CinemaSeatBooking/CinemaSeatBooking.jsx` and the
operations its specification describes), together with theorems settling
the specification's claims about it.

JavaScript strings are modelled as lists of UTF-16 code units
(`List Nat`); JavaScript numbers holding prices are modelled as exact
rationals; the seat grid is a list of rows, each a list of seat records,
mirroring the 2-D array the source builds.
-/

namespace CinemaSeatBooking

/-- A JavaScript string, as its sequence of UTF-16 code units. -/
abbrev JSString := List Nat

/-- Embed a Lean string literal (ASCII in this development) as a
JavaScript string. -/
def str (s : String) : JSString := s.data.map Char.toNat

/-- `String.fromCharCode(n)`: JavaScript applies ToUint16, i.e. reduces
the argument modulo 2^16, before forming the code unit. -/
def jsCharCode (n : Nat) : Nat := n % 65536

/-- Little-endian decimal digits of a natural number, with explicit fuel
so the kernel can evaluate it.  `natDecimalRev` supplies enough fuel. -/
def natDecimalRevFuel : Nat → Nat → List Nat
  | 0, _ => []
  | fuel + 1, n => if n < 10 then [n] else n % 10 :: natDecimalRevFuel fuel (n / 10)

/-- Little-endian decimal digits of a natural number. -/
def natDecimalRev (n : Nat) : List Nat := natDecimalRevFuel (n + 1) n

/-- The decimal string a JavaScript template literal produces for a
non-negative integer: most-significant digit first, as code units. -/
def jsNumToString (n : Nat) : JSString := (natDecimalRev n).reverse.map (fun d => d + 48)

/-- Value of a little-endian digit list; used to invert `natDecimalRev`. -/
def valRev : List Nat → Nat
  | [] => 0
  | d :: ds => d + 10 * valRev ds

/-- Seat status: the source stores the strings `'available' | 'booked'`. -/
inductive SeatStatus where
  | available
  | booked
deriving DecidableEq, Repr

/-- Configuration of one seat type: `{ price, rows }` from the
`seatTypes` prop. -/
structure SeatTypeCfg where
  price : ℚ
  rows : List Nat
deriving DecidableEq, Repr

/-- The cinema `layout` prop: `{ rows, seatsPerRow, aislePositions }`.
`rows` and `seatsPerRow` are JavaScript numbers that may be non-positive,
hence `Int`. -/
structure Layout where
  rows : Int
  seatsPerRow : Int
  aislePositions : List Int
deriving DecidableEq, Repr

/-- `const COLORS = ['blue', 'purple', 'yellow', 'green']`. -/
def COLORS : List JSString := [str "blue", str "purple", str "yellow", str "green"]

/-- Result of `getSeatType`: `{ type, color, price, config }`.  The
fallback branch's `config: seatTypes.regular || {}` is modelled with
`none` standing for the empty object `{}`. -/
structure SeatTypeResult where
  type : JSString
  color : JSString
  price : ℚ
  config : Option SeatTypeCfg
deriving DecidableEq, Repr

/-- The loop of `getSeatType`: walk `Object.entries(seatTypes)` in
declaration order with a running `colorIndex`; the first entry whose
`rows` includes `rowIndex` wins; otherwise fall back to the `regular`
entry of the full mapping (price 0 and empty config when absent). -/
def getSeatTypeAux (seatTypes : List (JSString × SeatTypeCfg)) (rowIndex : Nat) :
    List (JSString × SeatTypeCfg) → Nat → SeatTypeResult
  | [], _ =>
    { type := str "regular"
      color := (COLORS.getD 0 [])
      price := match List.lookup (str "regular") seatTypes with
               | some c => c.price
               | none => 0
      config := List.lookup (str "regular") seatTypes }
  | (ty, cfg) :: rest, colorIndex =>
    if cfg.rows.contains rowIndex then
      { type := ty
        color := COLORS.getD (colorIndex % COLORS.length) []
        price := cfg.price
        config := some cfg }
    else
      getSeatTypeAux seatTypes rowIndex rest (colorIndex + 1)

/-- `getSeatType(rowIndex)` from the source: first-declared seat type
whose `rows` contains the row wins; otherwise the `regular` fallback. -/
def getSeatType (seatTypes : List (JSString × SeatTypeCfg)) (rowIndex : Nat) : SeatTypeResult :=
  getSeatTypeAux seatTypes rowIndex seatTypes 0

/-- One seat record, as built by `initializeSeats`. -/
structure Seat where
  id : JSString
  row : JSString
  seat : Nat
  type : JSString
  price : ℚ
  color : JSString
  status : SeatStatus
  selected : Bool
deriving DecidableEq, Repr

/-- The id `` `${rowLetter}${seat}` `` of the seat in (0-based) row
`row` at 1-based column `seatNum`. -/
def seatIdOf (row : Nat) (seatNum : Nat) : JSString :=
  jsCharCode (65 + row) :: jsNumToString seatNum

/-- Body of the inner loop of `initializeSeats`: build the seat record
for (0-based) `row` and 1-based column `seatNum`.  The last field
embeds the source line
`const isSelected = seatId === 'A5' || seatId === 'B3'`
(commented there "Temporarily mark some seats as selected for testing"). -/
def mkSeat (seatTypes : List (JSString × SeatTypeCfg)) (bookedSeats : List JSString)
    (row : Nat) (seatNum : Nat) : Seat :=
  let r := getSeatType seatTypes row
  let seatId := seatIdOf row seatNum
  { id := seatId
    row := [jsCharCode (65 + row)]
    seat := seatNum
    type := r.type
    price := r.price
    color := r.color
    status := if bookedSeats.contains seatId then .booked else .available
    selected := seatId == str "A5" || seatId == str "B3" }

/-- `initializeSeats` from the source: for `row` from 0 while
`row < layout.rows`, for `seat` from 1 to `layout.seatsPerRow`, push one
seat record; a non-positive bound yields zero iterations of the loop. -/
def initializeSeats (layout : Layout) (seatTypes : List (JSString × SeatTypeCfg))
    (bookedSeats : List JSString) : List (List Seat) :=
  (List.range layout.rows.toNat).map fun row =>
    (List.range layout.seatsPerRow.toNat).map fun s =>
      mkSeat seatTypes bookedSeats row (s + 1)

/-- Error raised when a malformed layout is rejected at initialization. -/
inductive ConfigError where
  | InvalidConfig
deriving DecidableEq, Repr

/-- Modelled from the spec: the validating initializer of §4.1/§6/§7
(`rowCount ≤ 0` or `seatsPerRow ≤ 0` → configuration rejected with
`InvalidConfig`) has no counterpart in `src/`; this definition follows
the spec's words and wraps the source's `initializeSeats`. -/
def initializeChecked (layout : Layout) (seatTypes : List (JSString × SeatTypeCfg))
    (bookedSeats : List JSString) : Except ConfigError (List (List Seat)) :=
  if layout.rows ≤ 0 ∨ layout.seatsPerRow ≤ 0 then
    .error .InvalidConfig
  else
    .ok (initializeSeats layout seatTypes bookedSeats)

/-- The configuration a session is started from. -/
structure SessionConfig where
  layout : Layout
  seatTypes : List (JSString × SeatTypeCfg)
  bookedSeats : List JSString
deriving DecidableEq, Repr

/-- One session's state: the immutable configuration, the seat grid, the
insertion-ordered list of selected seat ids (the SelectionSet), and an
instrumentation counter recording how many times grid construction ran. -/
structure SessionState where
  config : SessionConfig
  seats : List (List Seat)
  selectedOrder : List JSString
  builds : Nat
deriving DecidableEq, Repr

/-- The seat stored at 0-based `(rowIndex, columnIndex)`, when it exists. -/
def seatAt (seats : List (List Seat)) (rowIndex columnIndex : Nat) : Option Seat :=
  seats[rowIndex]?.bind fun r => r[columnIndex]?

/-- Modelled from the spec: the Selection Tracker's `toggleSeat` (§4.3)
has no counterpart in `src/` (the snapshot has no interaction handlers).
An out-of-range target or a seat with `status = booked` is a silent
no-op; otherwise the target's `selected` flag flips and the SelectionSet
gains the seat at the end (insertion order) or loses it. -/
def toggleSeat (st : SessionState) (rowIndex columnIndex : Nat) : SessionState :=
  match seatAt st.seats rowIndex columnIndex with
  | none => st
  | some s =>
    if s.status = .booked then st
    else
      let s' : Seat := { s with selected := !s.selected }
      { st with
        seats := st.seats.set rowIndex ((st.seats.getD rowIndex []).set columnIndex s')
        selectedOrder :=
          if s'.selected then st.selectedOrder ++ [s.id]
          else st.selectedOrder.filter (fun i => i != s.id) }

/-- Reason a commit is rejected. -/
inductive CommitError where
  | NoSeatsSelected
deriving DecidableEq, Repr

/-- The summary a successful commit emits.  The spec's `timestampUTC` is
a reading of an external clock at commit time and is outside this model. -/
structure BookingSummary where
  seatIds : List JSString
  totalPrice : ℚ
deriving DecidableEq, Repr

/-- Price of the seat with the given id in the grid (0 when absent; ids
are unique by construction, so `find?` is unambiguous on real grids). -/
def priceOfId (seats : List (List Seat)) (i : JSString) : ℚ :=
  match seats.flatten.find? (fun s => s.id == i) with
  | some s => s.price
  | none => 0

/-- Modelled from the spec: the Booking Committer's `commitBooking`
(§4.4) has no counterpart in `src/`.  An empty SelectionSet is rejected
with `NoSeatsSelected` and nothing changes; otherwise every selected
seat becomes `booked` and unselected, the summary carries the selected
ids in insertion order and the exact sum of their prices, and the
SelectionSet is cleared. -/
def commitBooking (st : SessionState) : Except CommitError (SessionState × BookingSummary) :=
  if st.selectedOrder.isEmpty then
    .error .NoSeatsSelected
  else
    .ok
      ({ st with
          seats := st.seats.map (List.map fun s =>
            if st.selectedOrder.contains s.id then
              { s with status := .booked, selected := false }
            else s)
          selectedOrder := [] },
       { seatIds := st.selectedOrder
         totalPrice := (st.selectedOrder.map (priceOfId st.seats)).sum })

/-- A user-interaction event dispatched into the core (§6). -/
inductive UserEvent where
  | seatToggle (rowIndex columnIndex : Nat)
  | commitRequest
deriving DecidableEq, Repr

/-- Start a session: grid construction runs here, exactly once. -/
def initSession (cfg : SessionConfig) : SessionState :=
  { config := cfg
    seats := initializeSeats cfg.layout cfg.seatTypes cfg.bookedSeats
    selectedOrder := []
    builds := 1 }

/-- Dispatch one user event; a rejected commit leaves the state as is. -/
def stepSession (st : SessionState) : UserEvent → SessionState
  | .seatToggle r c => toggleSeat st r c
  | .commitRequest =>
    match commitBooking st with
    | .ok (st', _) => st'
    | .error _ => st

/-- Run a whole session: initialize once, then fold the event stream. -/
def runSession (cfg : SessionConfig) (events : List UserEvent) : SessionState :=
  events.foldl stepSession (initSession cfg)

/-- Sample seat-type mapping of the spec's §8 scenario, for witnesses. -/
def sampleSeatTypes : List (JSString × SeatTypeCfg) :=
  [(str "regular", ⟨10, [0]⟩), (str "premium", ⟨20, [1]⟩)]

/-- A session over a 1×1 grid whose only seat A1 is pre-booked. -/
def sampleBookedSession : SessionState :=
  initSession ⟨⟨1, 1, []⟩, [], [str "A1"]⟩

/-- A session over a 1×2 grid after toggling seat A1 into the selection. -/
def sampleSelectedSession : SessionState :=
  runSession ⟨⟨1, 2, []⟩, [], []⟩ [.seatToggle 0 0]

/-- A freshly initialized session of the spec's §8 scenario, nothing selected. -/
def sampleFreshSession : SessionState :=
  initSession ⟨⟨2, 3, [1]⟩, sampleSeatTypes, [str "A2"]⟩

/-! ## Auxiliary lemmas -/

theorem valRev_natDecimalRevFuel (fuel : Nat) :
    ∀ n, n < fuel → valRev (natDecimalRevFuel fuel n) = n := by
  induction fuel with
  | zero => intro n h; omega
  | succ fuel ih =>
    intro n h
    by_cases h10 : n < 10
    · simp [natDecimalRevFuel, h10, valRev]
    · simp only [natDecimalRevFuel, h10, if_false, valRev]
      rw [ih (n / 10) (by omega)]
      omega

theorem valRev_natDecimalRev (n : Nat) : valRev (natDecimalRev n) = n :=
  valRev_natDecimalRevFuel (n + 1) n (Nat.lt_succ_self n)

theorem natDecimalRev_injective : Function.Injective natDecimalRev := by
  intro a b h
  have ha := valRev_natDecimalRev a
  rw [h, valRev_natDecimalRev] at ha
  exact ha.symm

theorem jsNumToString_injective : Function.Injective jsNumToString := by
  intro a b h
  unfold jsNumToString at h
  have h1 := List.map_injective_iff.mpr (fun x y (hxy : x + 48 = y + 48) => by omega) h
  have h2 := List.reverse_injective h1
  exact natDecimalRev_injective h2

theorem seatIdOf_inj {r r' n n' : Nat} (hr : r < 65536) (hr' : r' < 65536)
    (h : seatIdOf r n = seatIdOf r' n') : r = r' ∧ n = n' := by
  unfold seatIdOf jsCharCode at h
  rw [List.cons.injEq] at h
  exact ⟨by omega, jsNumToString_injective h.2⟩

theorem seatIdOf_inj_col {r n n' : Nat} (h : seatIdOf r n = seatIdOf r n') : n = n' := by
  unfold seatIdOf at h
  rw [List.cons.injEq] at h
  exact jsNumToString_injective h.2

theorem mkSeat_id (ts : List (JSString × SeatTypeCfg)) (bs : List JSString) (row n : Nat) :
    (mkSeat ts bs row n).id = seatIdOf row n := rfl

theorem sum_map_const_range (n m : Nat) : ((List.range n).map fun _ => m).sum = n * m := by
  induction n with
  | zero => simp
  | succ n ih => rw [List.range_succ]; simp [ih, Nat.succ_mul]

theorem initializeSeats_flatten_length (layout : Layout) (ts : List (JSString × SeatTypeCfg))
    (bs : List JSString) :
    (initializeSeats layout ts bs).flatten.length
      = layout.rows.toNat * layout.seatsPerRow.toNat := by
  rw [List.length_flatten, initializeSeats, List.map_map]
  have : (List.length ∘ fun row =>
      (List.range layout.seatsPerRow.toNat).map fun s => mkSeat ts bs row (s + 1))
      = fun _ => layout.seatsPerRow.toNat := by
    funext row; simp
  rw [this, sum_map_const_range]

theorem initializeSeats_ids (layout : Layout) (ts : List (JSString × SeatTypeCfg))
    (bs : List JSString) :
    (initializeSeats layout ts bs).flatten.map Seat.id
      = ((List.range layout.rows.toNat).map fun r =>
          (List.range layout.seatsPerRow.toNat).map fun s => seatIdOf r (s + 1)).flatten := by
  rw [List.map_flatten, initializeSeats, List.map_map]
  congr 1
  apply List.map_congr_left
  intro r _
  simp [List.map_map, Function.comp, mkSeat_id]

theorem range_ids_nodup (n m : Nat) (hn : n ≤ 65536) :
    (((List.range n).map fun r =>
      (List.range m).map fun s => seatIdOf r (s + 1)).flatten).Nodup := by
  rw [List.nodup_flatten]
  constructor
  · intro l hl
    rw [List.mem_map] at hl
    obtain ⟨r, _, rfl⟩ := hl
    refine List.Nodup.map ?_ (List.nodup_range m)
    intro a b hab
    have := seatIdOf_inj_col hab
    omega
  · rw [List.pairwise_map, List.pairwise_iff_getElem]
    intro i j hi hj hij
    rw [List.length_range] at hi hj
    rw [List.getElem_range, List.getElem_range]
    intro x hx hx'
    rw [List.mem_map] at hx hx'
    obtain ⟨a, _, rfl⟩ := hx
    obtain ⟨b, _, hba⟩ := hx'
    have := (seatIdOf_inj (by omega) (by omega) hba.symm).1
    omega

theorem flatten_map_singleton {α β : Type} (f : α → β) (l : List α) :
    (l.map fun a => [f a]).flatten = l.map f := by
  induction l with
  | nil => rfl
  | cons a l ih => simp [ih]

theorem getSeatTypeAux_spec (full : List (JSString × SeatTypeCfg)) (rowIndex : Nat) :
    ∀ (l : List (JSString × SeatTypeCfg)) (ci : Nat),
      (∀ ty cfg, l.find? (fun p => p.2.rows.contains rowIndex) = some (ty, cfg) →
          (getSeatTypeAux full rowIndex l ci).type = ty
          ∧ (getSeatTypeAux full rowIndex l ci).price = cfg.price)
      ∧ (l.find? (fun p => p.2.rows.contains rowIndex) = none →
          getSeatTypeAux full rowIndex l ci = getSeatTypeAux full rowIndex [] 0) := by
  intro l
  induction l with
  | nil =>
    intro ci
    refine ⟨fun ty cfg h => by simp at h, fun _ => ?_⟩
    simp [getSeatTypeAux]
  | cons p rest ih =>
    intro ci
    obtain ⟨ty0, cfg0⟩ := p
    by_cases hc : cfg0.rows.contains rowIndex
    · have hm : rowIndex ∈ cfg0.rows := by simpa using hc
      refine ⟨fun ty cfg h => ?_, fun h => ?_⟩
      · simp only [List.find?_cons, hc] at h
        rw [Option.some.injEq, Prod.mk.injEq] at h
        obtain ⟨h1, h2⟩ := h
        subst h1
        subst h2
        simp [getSeatTypeAux, hm]
      · simp only [List.find?_cons, hc] at h
        exact Option.noConfusion h
    · have hm : rowIndex ∉ cfg0.rows := by simpa using hc
      refine ⟨fun ty cfg h => ?_, fun h => ?_⟩
      · simp only [List.find?_cons, hc, Bool.false_eq_true, if_false] at h
        simpa [getSeatTypeAux, hm] using (ih (ci + 1)).1 ty cfg h
      · simp only [List.find?_cons, hc, Bool.false_eq_true, if_false] at h
        simpa [getSeatTypeAux, hm] using (ih (ci + 1)).2 h

theorem toggleSeat_config_builds (st : SessionState) (r c : Nat) :
    (toggleSeat st r c).config = st.config ∧ (toggleSeat st r c).builds = st.builds := by
  unfold toggleSeat
  cases seatAt st.seats r c with
  | none => exact ⟨rfl, rfl⟩
  | some s =>
    by_cases hb : s.status = SeatStatus.booked
    · simp [hb]
    · simp [hb]

theorem stepSession_config_builds (st : SessionState) (e : UserEvent) :
    (stepSession st e).config = st.config ∧ (stepSession st e).builds = st.builds := by
  cases e with
  | seatToggle r c => exact toggleSeat_config_builds st r c
  | commitRequest =>
    unfold stepSession commitBooking
    by_cases hne : st.selectedOrder.isEmpty
    · simp [hne]
    · simp [hne]

/-! ## Claim theorems -/

/-- C1: every seat should start with `selected = false` (only `status` may
differ, according to membership in `preBookedIds`).  The source violates this:
`const isSelected = seatId === 'A5' || seatId === 'B3'` (commented
"Temporarily mark some seats as selected for testing") makes seat A5 start
selected.  Evaluating the construction at `layout = {rows: 1, seatsPerRow: 5}`
with no seat types and an empty pre-booked set shows seat A5 constructed with
`selected = true` although its id is in no pre-booked set. -/
theorem initializeSeats_A5_starts_selected :
    (initializeSeats ⟨1, 5, []⟩ [] []).map (List.map Seat.selected)
      = [[false, false, false, false, true]] := by decide

/-- C2: a seat with `status = booked` must never be selected.  The source
violates the invariant already at construction: pre-booking seat A5 produces
a seat that is simultaneously `booked` and `selected` (same testing line as
for C1). -/
theorem initializeSeats_booked_A5_selected :
    (initializeSeats ⟨1, 5, []⟩ [] [str "A5"]).map (List.map fun s => (s.status, s.selected))
      = [[(SeatStatus.available, false), (SeatStatus.available, false),
          (SeatStatus.available, false), (SeatStatus.available, false),
          (SeatStatus.booked, true)]] := by decide

/-- C5 counterexample: the source performs no layout validation at all.  At
the concrete invalid configuration `{rows: 0, seatsPerRow: 5}` it produces a
grid value (with zero rows) and raises nothing, whereas the spec-faithful
checked initializer rejects the same configuration with `InvalidConfig`. -/
theorem initializeSeats_invalid_config_not_rejected :
    initializeSeats ⟨0, 5, []⟩ [] [] = []
    ∧ initializeChecked ⟨0, 5, []⟩ [] [] = Except.error ConfigError.InvalidConfig :=
  ⟨rfl, rfl⟩

/-- C5 (amended): initialization with `rowCount ≤ 0` or `seatsPerRow ≤ 0` is
not rejected — no `InvalidConfig` error exists in the source; construction
runs its loops zero times and yields a degenerate grid containing no seats. -/
theorem initializeSeats_invalid_config_empty (layout : Layout)
    (ts : List (JSString × SeatTypeCfg)) (bs : List JSString)
    (h : layout.rows ≤ 0 ∨ layout.seatsPerRow ≤ 0) :
    (initializeSeats layout ts bs).flatten = [] := by
  rcases h with h | h
  · have h0 : layout.rows.toNat = 0 := by omega
    simp [initializeSeats, h0]
  · have h0 : layout.seatsPerRow.toNat = 0 := by omega
    simp [initializeSeats, h0]

theorem initializeSeats_invalid_config_empty_witness :
    ((Layout.mk 0 5 []).rows ≤ 0 ∨ (Layout.mk 0 5 []).seatsPerRow ≤ 0)
    ∧ (initializeSeats ⟨0, 5, []⟩ [] []).flatten = [] :=
  ⟨Or.inl le_rfl, initializeSeats_invalid_config_empty ⟨0, 5, []⟩ [] [] (Or.inl le_rfl)⟩

/-- C7: the booking model is independent of `aislePositions`: construction
never reads that field, so two layouts agreeing on `rows` and `seatsPerRow`
produce identical grids (same ids, types, prices, statuses, selected flags),
whatever their aisle positions. -/
theorem initializeSeats_independent_of_aisles (l1 l2 : Layout)
    (ts : List (JSString × SeatTypeCfg)) (bs : List JSString)
    (hr : l1.rows = l2.rows) (hs : l1.seatsPerRow = l2.seatsPerRow) :
    initializeSeats l1 ts bs = initializeSeats l2 ts bs := by
  simp [initializeSeats, hr, hs]

theorem initializeSeats_independent_of_aisles_witness :
    ((Layout.mk 2 3 [1]).rows = (Layout.mk 2 3 [99, -1]).rows
      ∧ (Layout.mk 2 3 [1]).seatsPerRow = (Layout.mk 2 3 [99, -1]).seatsPerRow)
    ∧ initializeSeats ⟨2, 3, [1]⟩ sampleSeatTypes [str "A2"]
        = initializeSeats ⟨2, 3, [99, -1]⟩ sampleSeatTypes [str "A2"] :=
  ⟨⟨rfl, rfl⟩,
   initializeSeats_independent_of_aisles ⟨2, 3, [1]⟩ ⟨2, 3, [99, -1]⟩
     sampleSeatTypes [str "A2"] rfl rfl⟩

/-- C3: the seat grid is constructed exactly once per configuration, at
initialization; dispatching any sequence of user-interaction events (seat
toggles and commit requests) never re-runs grid construction and never touches
the configuration, so in-progress selections are never discarded by a rebuild:
after any event sequence the construction counter still reads 1. -/
theorem runSession_builds_grid_once (cfg : SessionConfig) (events : List UserEvent) :
    (runSession cfg events).builds = 1 ∧ (runSession cfg events).config = cfg := by
  have key : ∀ (es : List UserEvent) (st : SessionState),
      (es.foldl stepSession st).builds = st.builds
      ∧ (es.foldl stepSession st).config = st.config := by
    intro es
    induction es with
    | nil => intro st; exact ⟨rfl, rfl⟩
    | cons e es ih =>
      intro st
      rw [List.foldl_cons]
      obtain ⟨hcfg, hbld⟩ := stepSession_config_builds st e
      obtain ⟨ihb, ihc⟩ := ih (stepSession st e)
      exact ⟨ihb.trans hbld, ihc.trans hcfg⟩
  obtain ⟨hb, hc⟩ := key events (initSession cfg)
  exact ⟨hb, hc⟩

/-- C4: the layout resolver is a function of the row, so exactly one
`(seatType, price)` is assigned; the seat-type mapping is scanned in
declaration order and the first entry whose `rows` contains the row wins
(`List.find?` returns precisely the first match); when no entry claims the
row the fallback is type "regular" with the configured regular price, or
price 0 when no "regular" entry is configured — a defined result, not an
error. -/
theorem getSeatType_first_declared_wins (seatTypes : List (JSString × SeatTypeCfg))
    (rowIndex : Nat) :
    (∀ ty cfg, seatTypes.find? (fun p => p.2.rows.contains rowIndex) = some (ty, cfg) →
        (getSeatType seatTypes rowIndex).type = ty
        ∧ (getSeatType seatTypes rowIndex).price = cfg.price)
    ∧ (seatTypes.find? (fun p => p.2.rows.contains rowIndex) = none →
        (getSeatType seatTypes rowIndex).type = str "regular"
        ∧ (getSeatType seatTypes rowIndex).price
            = ((List.lookup (str "regular") seatTypes).map SeatTypeCfg.price).getD 0) := by
  have h := getSeatTypeAux_spec seatTypes rowIndex seatTypes 0
  refine ⟨h.1, fun hn => ?_⟩
  have h2 := h.2 hn
  unfold getSeatType
  rw [h2]
  refine ⟨rfl, ?_⟩
  simp only [getSeatTypeAux]
  cases List.lookup (str "regular") seatTypes <;> simp

theorem getSeatType_first_declared_wins_witness :
    (sampleSeatTypes.find? (fun p => p.2.rows.contains 1)
        = some (str "premium", ⟨20, [1]⟩))
    ∧ ((getSeatType sampleSeatTypes 1).type = str "premium"
        ∧ (getSeatType sampleSeatTypes 1).price = SeatTypeCfg.price ⟨20, [1]⟩) :=
  ⟨by decide,
   (getSeatType_first_declared_wins sampleSeatTypes 1).1 (str "premium") ⟨20, [1]⟩ (by decide)⟩

/-- C6 counterexample: the claim quantifies over every valid layout
(`rowCount > 0`, `seatsPerRow > 0`), but `String.fromCharCode(65 + row)`
reduces its argument modulo 2^16, so in the valid layout
`{rows: 65537, seatsPerRow: 1}` rows 0 and 65536 receive the same row letter
"A" and the grid's ids are not pairwise distinct. -/
theorem initializeSeats_ids_collide_beyond_65536 :
    ¬ ((initializeSeats ⟨65537, 1, []⟩ [] []).flatten.map Seat.id).Nodup := by
  intro hnd
  rw [initializeSeats_ids] at hnd
  have hform : ((List.range (Layout.mk 65537 1 []).rows.toNat).map fun r =>
        (List.range (Layout.mk 65537 1 []).seatsPerRow.toNat).map fun s => seatIdOf r (s + 1))
      = (List.range 65537).map fun r => [seatIdOf r 1] := rfl
  rw [hform, flatten_map_singleton] at hnd
  have hi : (0 : Nat) < ((List.range 65537).map fun r => seatIdOf r 1).length := by simp
  have hj : (65536 : Nat) < ((List.range 65537).map fun r => seatIdOf r 1).length := by simp
  have hne := List.pairwise_iff_getElem.mp hnd 0 65536 hi hj (by omega)
  rw [List.getElem_map, List.getElem_map, List.getElem_range, List.getElem_range] at hne
  exact hne (by decide)

/-- C6 (amended): for every valid layout whose `rowCount` moreover stays
within one UTF-16 code unit of row letter (`rowCount ≤ 65536`, which covers
every layout the component renders), construction yields exactly
`rowCount × seatsPerRow` seats and the derived ids are pairwise distinct. -/
theorem initializeSeats_size_and_ids_nodup (layout : Layout)
    (ts : List (JSString × SeatTypeCfg)) (bs : List JSString)
    (_h1 : 0 < layout.rows) (_h2 : 0 < layout.seatsPerRow) (h3 : layout.rows ≤ 65536) :
    (initializeSeats layout ts bs).flatten.length
        = layout.rows.toNat * layout.seatsPerRow.toNat
    ∧ ((initializeSeats layout ts bs).flatten.map Seat.id).Nodup := by
  refine ⟨initializeSeats_flatten_length layout ts bs, ?_⟩
  rw [initializeSeats_ids]
  exact range_ids_nodup _ _ (by omega)

theorem initializeSeats_size_and_ids_nodup_witness :
    (0 < (Layout.mk 2 3 [1]).rows ∧ 0 < (Layout.mk 2 3 [1]).seatsPerRow
      ∧ (Layout.mk 2 3 [1]).rows ≤ 65536)
    ∧ ((initializeSeats ⟨2, 3, [1]⟩ sampleSeatTypes [str "A2"]).flatten.length
          = (Layout.mk 2 3 [1]).rows.toNat * (Layout.mk 2 3 [1]).seatsPerRow.toNat
        ∧ ((initializeSeats ⟨2, 3, [1]⟩ sampleSeatTypes [str "A2"]).flatten.map Seat.id).Nodup) :=
  ⟨⟨by norm_num, by norm_num, by norm_num⟩,
   initializeSeats_size_and_ids_nodup ⟨2, 3, [1]⟩ sampleSeatTypes [str "A2"]
     (by norm_num) (by norm_num) (by norm_num)⟩

/-- C8: toggling a booked seat, or toggling out-of-range indices, is a
silently-ignored no-op: no error is raised (the operation is total) and the
whole session state — every seat's `selected` flag and `status`, the grid and
the SelectionSet — is returned unchanged.  The hypothesis says the target
seat either does not exist or has `status = booked`. -/
theorem toggleSeat_noop_on_booked_or_missing (st : SessionState) (r c : Nat)
    (h : Option.all (fun s => s.status == SeatStatus.booked) (seatAt st.seats r c) = true) :
    toggleSeat st r c = st := by
  unfold toggleSeat
  cases hs : seatAt st.seats r c with
  | none => rfl
  | some s =>
    rw [hs] at h
    simp only [Option.all, beq_iff_eq] at h
    simp [h]

theorem toggleSeat_noop_on_booked_or_missing_witness :
    (Option.all (fun s => s.status == SeatStatus.booked)
        (seatAt sampleBookedSession.seats 0 0) = true
      ∧ Option.all (fun s => s.status == SeatStatus.booked)
        (seatAt sampleBookedSession.seats 7 9) = true)
    ∧ (toggleSeat sampleBookedSession 0 0 = sampleBookedSession
      ∧ toggleSeat sampleBookedSession 7 9 = sampleBookedSession) :=
  ⟨⟨by decide, by decide⟩,
   ⟨toggleSeat_noop_on_booked_or_missing sampleBookedSession 0 0 (by decide),
    toggleSeat_noop_on_booked_or_missing sampleBookedSession 7 9 (by decide)⟩⟩

/-- C9: committing a non-empty SelectionSet succeeds and: the summary's
`seatIds` are exactly the selected ids in insertion order, its `totalPrice`
is the exact sum of the committed seats' prices, the SelectionSet is empty
afterwards, and every grid position holds the old seat with
`status = booked, selected = false` when its id was selected and the old
seat unchanged otherwise. -/
theorem commitBooking_nonempty_commits_all (st : SessionState)
    (h : st.selectedOrder ≠ []) :
    ∃ st' summary,
      commitBooking st = Except.ok (st', summary)
      ∧ summary.seatIds = st.selectedOrder
      ∧ summary.totalPrice = (st.selectedOrder.map (priceOfId st.seats)).sum
      ∧ st'.selectedOrder = []
      ∧ st'.config = st.config
      ∧ ∀ r c : Nat, seatAt st'.seats r c
          = (seatAt st.seats r c).map fun s =>
              if st.selectedOrder.contains s.id then
                { s with status := SeatStatus.booked, selected := false }
              else s := by
  have hne : st.selectedOrder.isEmpty = false := by
    simpa [List.isEmpty_iff] using h
  refine ⟨{ st with
      seats := st.seats.map (List.map fun s =>
        if st.selectedOrder.contains s.id then
          { s with status := SeatStatus.booked, selected := false }
        else s)
      selectedOrder := [] },
    { seatIds := st.selectedOrder
      totalPrice := (st.selectedOrder.map (priceOfId st.seats)).sum },
    ?_, rfl, rfl, rfl, rfl, ?_⟩
  · unfold commitBooking
    rw [hne]
    simp
  · intro r c
    simp only [seatAt, List.getElem?_map]
    cases st.seats[r]? with
    | none => rfl
    | some row => simp [List.getElem?_map]

theorem commitBooking_nonempty_commits_all_witness :
    sampleSelectedSession.selectedOrder ≠ []
    ∧ ∃ st' summary,
        commitBooking sampleSelectedSession = Except.ok (st', summary)
        ∧ summary.seatIds = sampleSelectedSession.selectedOrder
        ∧ summary.totalPrice
            = (sampleSelectedSession.selectedOrder.map
                (priceOfId sampleSelectedSession.seats)).sum
        ∧ st'.selectedOrder = []
        ∧ st'.config = sampleSelectedSession.config
        ∧ ∀ r c : Nat, seatAt st'.seats r c
            = (seatAt sampleSelectedSession.seats r c).map fun s =>
                if sampleSelectedSession.selectedOrder.contains s.id then
                  { s with status := SeatStatus.booked, selected := false }
                else s :=
  ⟨by decide, commitBooking_nonempty_commits_all sampleSelectedSession (by decide)⟩

/-- C10: committing an empty SelectionSet is rejected with
`NoSeatsSelected`; the commit step then leaves the session state — in
particular the grid, every seat's `status` and `selected` flag — entirely
unchanged. -/
theorem commitBooking_empty_rejected (st : SessionState)
    (h : st.selectedOrder = []) :
    commitBooking st = Except.error CommitError.NoSeatsSelected
    ∧ stepSession st UserEvent.commitRequest = st := by
  have hne : st.selectedOrder.isEmpty = true := by simp [h]
  constructor
  · unfold commitBooking
    rw [hne]
    simp
  · unfold stepSession commitBooking
    rw [hne]
    simp

theorem commitBooking_empty_rejected_witness :
    sampleFreshSession.selectedOrder = []
    ∧ (commitBooking sampleFreshSession = Except.error CommitError.NoSeatsSelected
      ∧ stepSession sampleFreshSession UserEvent.commitRequest = sampleFreshSession) :=
  ⟨rfl, commitBooking_empty_rejected sampleFreshSession rfl⟩

end CinemaSeatBooking
